import Mathlib

/-!
Verification of the PropertiesSearch pipeline: a shallow embedding of the
repository's data model and operations (`property_api.py`, `google_sheets.py`,
`main.py`) together with theorems settling the specification's claims.

Randomised code is embedded by threading an explicit randomness oracle:
every `random.randint(a, b)` call is modelled as `a + roll % (b - a + 1)` over
an arbitrary natural `roll`, so that every oracle value is a valid draw and the
reachable outputs are exactly the support of the Python call.
-/

namespace PropertiesSearch

/-- A single property listing (dataclass `PropertyListing` in `property_api.py`). -/
structure PropertyListing where
  address : String
  price : Int
  bedrooms : Int
  bathrooms : Int
  property_type : String
  description : String
  url : String
  location : String
  postcode : String
  area_sqft : Option Int := none
  deriving Repr, DecidableEq

/-- Search criteria (dataclass `SearchParameters` in `property_api.py`). -/
structure SearchParameters where
  location : String
  min_price : Option Int := none
  max_price : Option Int := none
  min_bedrooms : Option Int := none
  max_bedrooms : Option Int := none
  property_type : Option String := none
  radius_miles : Option Int := none
  deriving Repr, DecidableEq

/-- Randomness consumed by one iteration of the generation loop of
`_fetch_from_mock_api`; one field per `random.*` call site. -/
structure ListingRand where
  typeRoll : Nat := 0
  bedroomsRoll : Nat := 0
  varRoll : Nat := 0
  minPadRoll : Nat := 0
  maxPadRoll : Nat := 0
  streetNumRoll : Nat := 0
  streetRoll : Nat := 0
  postcodeAreaRoll : Nat := 0
  postcodeDigitRoll : Nat := 0
  postcodeLetter1Roll : Nat := 0
  postcodeLetter2Roll : Nat := 0
  descRoll : Nat := 0
  idRoll : Nat := 0
  areaSqftRoll : Nat := 0
  bathroomsRoll : Nat := 0
  deriving Repr

/-- Randomness consumed by one call of `_fetch_from_mock_api`: the
number-of-properties draw plus per-listing randomness. -/
structure MockRand where
  numRoll : Nat := 0
  listing : Nat → ListingRand

/-- `random.randint(a, b)` (inclusive bounds), driven by an oracle roll. -/
def randint (a b : Int) (roll : Nat) : Int :=
  a + (roll % (b - a + 1).toNat : Nat)

/-- `random.choice(l)`, driven by an oracle roll; `d` is returned for an empty
list, which never happens on the code paths below. -/
def choiceD {α : Type} (l : List α) (d : α) (roll : Nat) : α :=
  l.getD (roll % l.length) d

/-- Whether `n` is a prefix of the second character list. -/
def isPrefixChars : List Char → List Char → Bool
  | [], _ => true
  | _ :: _, [] => false
  | a :: as, b :: bs => a == b && isPrefixChars as bs

/-- Whether `needle` occurs as a contiguous sublist. -/
def containsChars (needle : List Char) : List Char → Bool
  | [] => needle.isEmpty
  | c :: rest => isPrefixChars needle (c :: rest) || containsChars needle rest

/-- Python `needle in hay` on strings: substring containment. -/
def containsSub (hay needle : String) : Bool :=
  containsChars needle.data hay.data

/-- Python `str.lower()` (character-wise, which is exact on the ASCII data the
repository handles). -/
def pyLower (s : String) : String := ⟨s.data.map Char.toLower⟩

/-- Python `str.strip()`: drop whitespace from both ends. -/
def pyStrip (s : String) : String :=
  ⟨((s.data.dropWhile Char.isWhitespace).reverse.dropWhile Char.isWhitespace).reverse⟩

/-- Python truthiness of an `Optional[int]`: `None` and `0` are falsy. -/
def intTruthy : Option Int → Bool
  | none => false
  | some v => v != 0

/-- Python truthiness of an `Optional[str]`: `None` and `""` are falsy. -/
def strTruthy : Option String → Bool
  | none => false
  | some s => s != ""

/-- Helper for `titleCase`: the flag records whether the previous character was
alphabetic. -/
def titleChars : Bool → List Char → List Char
  | _, [] => []
  | prevAlpha, c :: rest =>
    (if c.isAlpha then (if prevAlpha then c.toLower else c.toUpper) else c) ::
      titleChars c.isAlpha rest

/-- Python `str.title()`: the first letter of each alphabetic run is upcased,
the rest downcased. -/
def titleCase (s : String) : String := ⟨titleChars false s.data⟩

/-- The fixed candidate property types of `_fetch_from_mock_api`. -/
def basePropertyTypes : List String :=
  ["house", "flat", "bungalow", "terraced house", "semi-detached house"]

/-- Candidate-type selection of `_fetch_from_mock_api`: if `property_type`
criteria is truthy, keep the types containing it case-insensitively, falling
back to `["house"]` when none does. -/
def candidateTypes (ptype : Option String) : List String :=
  if strTruthy ptype then
    let t := ptype.getD ""
    let filtered := basePropertyTypes.filter (fun pt => containsSub (pyLower pt) (pyLower t))
    if filtered.isEmpty then ["house"] else filtered
  else basePropertyTypes

/-- The fixed street-name pool of `_fetch_from_mock_api`. -/
def streets : List String :=
  ["High Street", "Church Road", "Victoria Road", "Park Avenue",
   "Mill Lane", "Oak Close", "The Green", "Station Road",
   "London Road", "Main Street", "Elm Drive", "Chestnut Way"]

/-- `areas.get(location_lower, ["SW1", "M1", "B1"])` of `_fetch_from_mock_api`. -/
def areasLookup (locationLower : String) : List String :=
  if locationLower == "london" then ["SW1", "SW2", "NW1", "NW3", "E1", "E2", "W1", "W2"]
  else if locationLower == "manchester" then ["M1", "M2", "M3", "M4", "M14", "M20"]
  else if locationLower == "birmingham" then ["B1", "B2", "B3", "B15", "B16", "B17"]
  else if locationLower == "leeds" then ["LS1", "LS2", "LS6", "LS7", "LS8"]
  else if locationLower == "bristol" then ["BS1", "BS2", "BS3", "BS6", "BS7"]
  else ["SW1", "M1", "B1"]

/-- `location_key = location_lower if location_lower in base_prices else "birmingham"`. -/
def locationKey (locationLower : String) : String :=
  if locationLower == "london" || locationLower == "manchester" ||
      locationLower == "birmingham" then locationLower
  else "birmingham"

/-- `type_key = property_type if property_type in base_prices[location_key] else "house"`
(every location table has exactly the keys house/flat/bungalow). -/
def typeKey (pt : String) : String :=
  if pt == "house" || pt == "flat" || pt == "bungalow" then pt else "house"

/-- The `base_prices` table of `_fetch_from_mock_api`. -/
def basePrice (lk tk : String) : Int :=
  if lk == "london" then
    (if tk == "flat" then 400000 else if tk == "bungalow" then 500000 else 600000)
  else if lk == "manchester" then
    (if tk == "flat" then 150000 else if tk == "bungalow" then 200000 else 250000)
  else
    (if tk == "flat" then 120000 else if tk == "bungalow" then 180000 else 200000)

/-- `int(price * random.uniform(0.8, 1.3))`: for the positive prices arising
here the support is the integers in `[(8 * p) / 10, (13 * p) / 10]`; the oracle
roll selects one of them. -/
def variedPrice (p : Int) (roll : Nat) : Int :=
  let lo := (8 * p) / 10
  let hi := (13 * p) / 10
  lo + (roll % (hi - lo + 1).toNat : Nat)

/-- `if params.min_bedrooms and bedrooms < params.min_bedrooms: bedrooms = params.min_bedrooms`. -/
def bedroomsClampMin (bound : Option Int) (v : Int) : Int :=
  if intTruthy bound ∧ v < bound.getD 0 then bound.getD 0 else v

/-- `if params.max_bedrooms and bedrooms > params.max_bedrooms: bedrooms = params.max_bedrooms`. -/
def bedroomsClampMax (bound : Option Int) (v : Int) : Int :=
  if intTruthy bound ∧ bound.getD 0 < v then bound.getD 0 else v

/-- `if params.min_price and price < params.min_price: price = params.min_price + random.randint(10000, 50000)`. -/
def priceClampMin (bound : Option Int) (v : Int) (roll : Nat) : Int :=
  if intTruthy bound ∧ v < bound.getD 0 then bound.getD 0 + randint 10000 50000 roll else v

/-- `if params.max_price and price > params.max_price: price = params.max_price - random.randint(10000, 50000)`. -/
def priceClampMax (bound : Option Int) (v : Int) (roll : Nat) : Int :=
  if intTruthy bound ∧ bound.getD 0 < v then bound.getD 0 - randint 10000 50000 roll else v

/-- The letter pool for postcode suffixes in `_fetch_from_mock_api`. -/
def postcodeLetters : List Char :=
  ['A','B','D','E','F','G','H','J','K','L','M','N','O','P','Q','R','S','T','U','V','W','X','Y','Z']

/-- One iteration of the generation loop of `_fetch_from_mock_api`
(`property_api.py`, lines 115-189). -/
def makeListing (params : SearchParameters) (r : ListingRand) : PropertyListing :=
  let property_type := choiceD (candidateTypes params.property_type) "house" r.typeRoll
  let bedrooms0 := randint 1 5 r.bedroomsRoll
  let bedrooms := bedroomsClampMax params.max_bedrooms
    (bedroomsClampMin params.min_bedrooms bedrooms0)
  let location_lower := pyLower params.location
  let base_price := basePrice (locationKey location_lower) (typeKey property_type)
  let price0 := variedPrice (base_price + (bedrooms - 2) * 50000) r.varRoll
  let price1 := priceClampMax params.max_price
    (priceClampMin params.min_price price0 r.minPadRoll) r.maxPadRoll
  let price := max 80000 (min price1 2000000)
  let street_num := randint 1 200 r.streetNumRoll
  let street := choiceD streets "" r.streetRoll
  let postcode := choiceD (areasLookup location_lower) "" r.postcodeAreaRoll ++ " " ++
    toString (randint 1 9 r.postcodeDigitRoll) ++
    String.mk [choiceD postcodeLetters 'A' r.postcodeLetter1Roll,
               choiceD postcodeLetters 'A' r.postcodeLetter2Roll]
  let address := toString street_num ++ " " ++ street ++ ", " ++ titleCase params.location
  let descriptions :=
    ["Beautiful " ++ property_type ++ " in " ++ titleCase params.location,
     "Stunning " ++ toString bedrooms ++ "-bedroom " ++ property_type,
     "Modern " ++ property_type ++ " with excellent transport links",
     "Spacious " ++ toString bedrooms ++ "-bedroom " ++ property_type ++ " in sought-after area"]
  let description := choiceD descriptions "" r.descRoll
  let property_id := randint 100000 999999 r.idRoll
  let url := "https://example-property-site.co.uk/property/" ++ toString property_id
  let area_sqft := if 1 < bedrooms then randint 600 2000 r.areaSqftRoll
    else randint 400 800 r.areaSqftRoll
  let bathrooms := min bedrooms (randint 1 3 r.bathroomsRoll)
  { address := address, price := price, bedrooms := bedrooms, bathrooms := bathrooms,
    property_type := property_type, description := description, url := url,
    location := titleCase params.location, postcode := postcode,
    area_sqft := some area_sqft }

/-- Insertion step of the stable sort by price. -/
def insertByPrice (a : PropertyListing) : List PropertyListing → List PropertyListing
  | [] => [a]
  | b :: l => if a.price ≤ b.price then a :: b :: l else b :: insertByPrice a l

/-- `properties.sort(key=lambda p: p.price)`: Python's sort is stable, and any
stable sort on the same key yields the same list, so a stable insertion sort is
a faithful model. -/
def sortByPrice (l : List PropertyListing) : List PropertyListing :=
  l.foldr insertByPrice []

/-- `PropertyAPIClient._fetch_from_mock_api` (`property_api.py`, lines 72-194),
with the randomness oracle made explicit (the `time.sleep` call has no effect
on the produced value and is omitted). -/
def fetchFromMockApi (params : SearchParameters) (rng : MockRand) : List PropertyListing :=
  let num_properties := 3 + rng.numRoll % 6
  sortByPrice ((List.range num_properties).map (fun i => makeListing params (rng.listing i)))

/-! ## Criteria source (`google_sheets.py`) -/

/-- `GoogleSheetsReader._find_column_index`: first acceptable alias found among
the normalised headers wins; the index is that of the alias's first occurrence. -/
def findColumnIndex (headers : List String) (possibleNames : List String) : Option Nat :=
  match possibleNames with
  | [] => none
  | n :: rest =>
    let nl := pyLower n
    if headers.contains nl then some (headers.indexOf nl) else findColumnIndex headers rest

/-- Decimal value of a digit run. -/
def digitsToNat (ds : List Char) : Nat :=
  ds.foldl (fun n c => 10 * n + (c.toNat - '0'.toNat)) 0

/-- `GoogleSheetsReader._parse_int` inner conversion: Python `int(...)` on the
cleaned cell (optional sign then decimal digits), `None` on failure. -/
def pyInt (s : String) : Option Int :=
  match s.data with
  | [] => none
  | '-' :: ds => if ds ≠ [] ∧ ds.all Char.isDigit then some (-(digitsToNat ds : Int)) else none
  | '+' :: ds => if ds ≠ [] ∧ ds.all Char.isDigit then some ((digitsToNat ds : Int)) else none
  | ds => if ds.all Char.isDigit then some ((digitsToNat ds : Int)) else none

/-- `GoogleSheetsReader._parse_int`: strip, treat blank as absent, drop currency
symbols and thousands separators, parse; parse failure resolves to absent. -/
def parseIntCell (row : List String) (index : Option Nat) : Option Int :=
  match index with
  | none => none
  | some i =>
    if row.length ≤ i then none
    else
      let value := pyStrip (row.getD i "")
      if value = "" then none
      else
        let cleaned :=
          pyStrip (String.mk (value.data.filter (fun c => c ≠ '£' ∧ c ≠ '$' ∧ c ≠ ',')))
        pyInt cleaned

/-- `GoogleSheetsReader._parse_string`: strip; empty resolves to absent. -/
def parseStringCell (row : List String) (index : Option Nat) : Option String :=
  match index with
  | none => none
  | some i =>
    if row.length ≤ i then none
    else
      let value := pyStrip (row.getD i "")
      if value = "" then none else some value

/-- The column indices resolved by `get_search_parameters` from the
normalised header row. -/
structure ColumnIndices where
  location : Option Nat
  minPrice : Option Nat
  maxPrice : Option Nat
  minBedrooms : Option Nat
  maxBedrooms : Option Nat
  propertyType : Option Nat
  radius : Option Nat
  deriving Repr, DecidableEq

/-- Header normalisation `[h.strip().lower() for h in all_values[0]]`. -/
def normalizeHeaders (hd : List String) : List String :=
  hd.map (fun h => pyLower (pyStrip h))

/-- The seven `_find_column_index` calls of `get_search_parameters`. -/
def resolveColumns (headers : List String) : ColumnIndices :=
  { location := findColumnIndex headers ["location", "city", "area"],
    minPrice := findColumnIndex headers ["min price", "min_price", "minimum price"],
    maxPrice := findColumnIndex headers ["max price", "max_price", "maximum price"],
    minBedrooms := findColumnIndex headers ["min bedrooms", "min_bedrooms"],
    maxBedrooms := findColumnIndex headers ["max bedrooms", "max_bedrooms"],
    propertyType := findColumnIndex headers ["property type", "property_type", "type"],
    radius := findColumnIndex headers ["radius", "radius_miles"] }

/-- The `SearchParameters` built from one included data row. -/
def rowToParams (cols : ColumnIndices) (locIdx : Nat) (row : List String) : SearchParameters :=
  { location := pyStrip (row.getD locIdx ""),
    min_price := parseIntCell row cols.minPrice,
    max_price := parseIntCell row cols.maxPrice,
    min_bedrooms := parseIntCell row cols.minBedrooms,
    max_bedrooms := parseIntCell row cols.maxBedrooms,
    property_type := parseStringCell row cols.propertyType,
    radius_miles := parseIntCell row cols.radius }

/-- One turn of the row loop of `get_search_parameters`: `None` for a skipped
row (all-blank, or blank/missing location after trimming). -/
def keepRow (cols : ColumnIndices) (locIdx : Nat) (row : List String) :
    Option SearchParameters :=
  if ¬ row.any (fun cell => pyStrip cell ≠ "") then none
  else
    let location := pyStrip (if locIdx < row.length then row.getD locIdx "" else "")
    if location = "" then none
    else some (rowToParams cols locIdx row)

/-- The row loop of `get_search_parameters`: skip all-blank rows, skip rows
whose (trimmed) location cell is blank or missing, keep the rest in order. -/
def processRows (cols : ColumnIndices) (locIdx : Nat)
    (rows : List (List String)) : List SearchParameters :=
  rows.filterMap (keepRow cols locIdx)

/-- `get_search_parameters` after the header row has been split off. -/
def parseSheet (hd : List String) (rows : List (List String)) :
    Except String (List SearchParameters) :=
  let headers := normalizeHeaders hd
  let cols := resolveColumns headers
  match cols.location with
  | none => .error "Required column 'Location' not found in the worksheet."
  | some locIdx =>
    let searchParams := processRows cols locIdx rows
    if searchParams = [] then
      .error "No valid search parameters found in the worksheet."
    else .ok searchParams

/-- `GoogleSheetsReader.get_search_parameters` (`google_sheets.py`, lines
61-120), starting from the fetched cell matrix `all_values`; each `raise` is an
`Except.error` carrying the message. -/
def getSearchParameters (allValues : List (List String)) :
    Except String (List SearchParameters) :=
  match allValues with
  | [] => .error "Worksheet is empty. Please check your spreadsheet and worksheet name."
  | hd :: rows => parseSheet hd rows

/-! ## Orchestrator (`main.py`) and reader construction -/

/-- Outcomes of the external collaborators touched while obtaining criteria:
whether the service-account credentials file exists on disk, the outcome of the
credential/authorisation calls, and the outcome of opening the spreadsheet and
reading its cell matrix. -/
structure SheetsEnv where
  credentialsFileExists : Bool
  authResult : Except String Unit
  openResult : Except String (List (List String))

/-- `GoogleSheetsReader._authenticate` (`google_sheets.py`, lines 19-38): a
missing credentials file raises; otherwise the external auth outcome decides. -/
def authenticate (env : SheetsEnv) : Except String Unit :=
  if ¬ env.credentialsFileExists then
    .error "Google Sheets credentials file not found"
  else env.authResult

/-- Criteria acquisition as performed inside the `try` block of
`get_search_parameters_from_sheets` (`main.py`, lines 17-23): construct the
reader (which authenticates), fetch the cell matrix, parse it. -/
def acquireCriteria (env : SheetsEnv) : Except String (List SearchParameters) := do
  authenticate env
  let allValues ← env.openResult
  getSearchParameters allValues

/-- The hardcoded fallback record of `get_search_parameters_from_sheets`
(`main.py`, lines 27-34). -/
def londonFallback : SearchParameters :=
  { location := "London", min_price := some 300000, max_price := some 600000,
    min_bedrooms := some 2, max_bedrooms := some 4, property_type := some "house",
    radius_miles := none }

/-- `get_search_parameters_from_sheets` (`main.py`, lines 14-35): any exception
during acquisition is caught and replaced by the single fallback record. -/
def getSearchParametersFromSheets (env : SheetsEnv) : List SearchParameters :=
  match acquireCriteria env with
  | .ok l => l
  | .error _ => [londonFallback]

/-- `run_search_and_email` (`main.py`, lines 37-70), reduced to its dataflow:
fetch the listings for one criteria record and, when the list is non-empty,
dispatch one report (subject and listing list); an empty list skips dispatch. -/
def runSearchAndEmail (fetch : SearchParameters → List PropertyListing)
    (params : SearchParameters) : Option (String × List PropertyListing) :=
  let properties := fetch params
  if properties = [] then none
  else some ("Property Search Results: " ++ params.location, properties)

/-- `main` (`main.py`, lines 72-80), reduced to its dataflow: obtain the
criteria list (with fallback) and process each record in order, pairing it with
the report dispatched for it (if any). -/
def runMain (fetch : SearchParameters → List PropertyListing) (env : SheetsEnv) :
    List (SearchParameters × Option (String × List PropertyListing)) :=
  (getSearchParametersFromSheets env).map (fun p => (p, runSearchAndEmail fetch p))

/-- A data row that `get_search_parameters` keeps: not entirely blank, and its
location cell non-blank after trimming (a row too short to have a location
cell counts as blank there). -/
def validRow (locIdx : Nat) (row : List String) : Bool :=
  row.any (fun cell => pyStrip cell ≠ "") && pyStrip (row.getD locIdx "") ≠ ""

/-! ## Concrete inputs used by witnesses and counterexamples -/

/-- All-zero randomness for one listing. -/
def zeroListingRand : ListingRand := {}

/-- Constant all-zero randomness oracle for a whole mock call. -/
def zeroMockRand : MockRand := { listing := fun _ => zeroListingRand }

/-- Like `zeroMockRand` but drawing one more listing. -/
def altMockRand : MockRand := { numRoll := 1, listing := fun _ => zeroListingRand }

/-- Criteria: Manchester, exactly two bedrooms, flats. -/
def manchesterFlat2 : SearchParameters :=
  { location := "Manchester", min_bedrooms := some 2, max_bedrooms := some 2,
    property_type := some "flat" }

/-- Criteria with both bedroom bounds present and equal to `0`. -/
def zeroBedroomsCriteria : SearchParameters :=
  { location := "London", min_bedrooms := some 0, max_bedrooms := some 0 }

/-- Criteria with a narrow price window far below the absolute floor. -/
def narrowPriceCriteria : SearchParameters :=
  { location := "Birmingham", min_price := some 20000, max_price := some 20000 }

/-- Criteria with a narrow price window well inside the absolute bounds. -/
def windowPriceCriteria : SearchParameters :=
  { location := "London", min_price := some 300000, max_price := some 300000 }

/-- A concrete header row for the criteria-source witnesses. -/
def sampleHeader : List String := ["Location", "Min Price", "Max Price"]

/-- Concrete data rows: one full row, one all-blank row (skipped), one row with
an unparseable numeric cell (kept, field absent). -/
def sampleRows : List (List String) :=
  [["London", "£300,000", "500000"], ["", "  ", ""], ["Leeds", "abc", ""]]

/-- Environment in which the credentials file is missing. -/
def missingCredsEnv : SheetsEnv :=
  { credentialsFileExists := false, authResult := .ok (), openResult := .ok [] }

/-- Environment in which authentication itself fails. -/
def badAuthEnv : SheetsEnv :=
  { credentialsFileExists := true, authResult := .error "invalid credentials",
    openResult := .ok [] }

/-! ## Basic lemmas about the randomness primitives and the sort -/

theorem randint_bounds (a b : Int) (roll : Nat) (h : a ≤ b) :
    a ≤ randint a b roll ∧ randint a b roll ≤ b := by
  unfold randint
  have h1 : ((b - a + 1).toNat : Int) = b - a + 1 := Int.toNat_of_nonneg (by omega)
  have hpos : 0 < (b - a + 1).toNat := by omega
  have h2 : roll % (b - a + 1).toNat < (b - a + 1).toNat := Nat.mod_lt _ hpos
  omega

theorem choiceD_mem {α : Type} (l : List α) (d : α) (roll : Nat) (h : l ≠ []) :
    choiceD l d roll ∈ l := by
  unfold choiceD
  have hlt : roll % l.length < l.length := Nat.mod_lt _ (List.length_pos.mpr h)
  rw [List.getD_eq_getElem l d hlt]
  exact List.getElem_mem hlt

theorem containsChars_nil (l : List Char) : containsChars [] l = true := by
  cases l <;> simp [containsChars, isPrefixChars]

theorem mem_insertByPrice (a x : PropertyListing) (l : List PropertyListing) :
    x ∈ insertByPrice a l ↔ x = a ∨ x ∈ l := by
  induction l with
  | nil => simp [insertByPrice]
  | cons b t ih =>
    rw [insertByPrice]
    split
    · simp [or_comm, or_assoc, or_left_comm]
    · simp [ih]
      tauto

theorem mem_sortByPrice (x : PropertyListing) (l : List PropertyListing) :
    x ∈ sortByPrice l ↔ x ∈ l := by
  induction l with
  | nil => simp [sortByPrice]
  | cons b t ih =>
    show x ∈ insertByPrice b (sortByPrice t) ↔ _
    rw [mem_insertByPrice]
    simp [ih, eq_comm]

theorem length_insertByPrice (a : PropertyListing) (l : List PropertyListing) :
    (insertByPrice a l).length = l.length + 1 := by
  induction l with
  | nil => rfl
  | cons b t ih =>
    rw [insertByPrice]
    split <;> simp [ih]

theorem length_sortByPrice (l : List PropertyListing) :
    (sortByPrice l).length = l.length := by
  induction l with
  | nil => rfl
  | cons b t ih =>
    show (insertByPrice b (sortByPrice t)).length = _
    rw [length_insertByPrice, ih]
    rfl

theorem pairwise_insertByPrice (a : PropertyListing) (l : List PropertyListing)
    (h : List.Pairwise (fun x y => x.price ≤ y.price) l) :
    List.Pairwise (fun x y => x.price ≤ y.price) (insertByPrice a l) := by
  induction l with
  | nil => simp [insertByPrice]
  | cons b t ih =>
    rw [insertByPrice]
    rcases List.pairwise_cons.mp h with ⟨hb, ht⟩
    split
    · rename_i hle
      refine List.pairwise_cons.mpr ⟨?_, h⟩
      intro x hx
      rcases List.mem_cons.mp hx with hxb | hxt
      · exact hxb ▸ hle
      · exact le_trans hle (hb x hxt)
    · rename_i hgt
      push_neg at hgt
      refine List.pairwise_cons.mpr ⟨?_, ih ht⟩
      intro x hx
      rcases (mem_insertByPrice a x t).mp hx with hxa | hxt
      · exact hxa ▸ le_of_lt hgt
      · exact hb x hxt

theorem sorted_sortByPrice (l : List PropertyListing) :
    List.Pairwise (fun x y => x.price ≤ y.price) (sortByPrice l) := by
  induction l with
  | nil => simp [sortByPrice]
  | cons b t ih => exact pairwise_insertByPrice b (sortByPrice t) ih

/-! ## Shape lemmas for the mock generator -/

theorem length_fetch (params : SearchParameters) (rng : MockRand) :
    (fetchFromMockApi params rng).length = 3 + rng.numRoll % 6 := by
  unfold fetchFromMockApi
  rw [length_sortByPrice, List.length_map, List.length_range]

theorem mem_fetch (params : SearchParameters) (rng : MockRand) (l : PropertyListing)
    (h : l ∈ fetchFromMockApi params rng) : ∃ r : ListingRand, l = makeListing params r := by
  unfold fetchFromMockApi at h
  rw [mem_sortByPrice] at h
  rcases List.mem_map.mp h with ⟨i, _, hi⟩
  exact ⟨rng.listing i, hi.symm⟩

theorem makeListing_bedrooms (p : SearchParameters) (r : ListingRand) :
    (makeListing p r).bedrooms =
      bedroomsClampMax p.max_bedrooms
        (bedroomsClampMin p.min_bedrooms (randint 1 5 r.bedroomsRoll)) := rfl

theorem makeListing_price (p : SearchParameters) (r : ListingRand) :
    ∃ v : Int, (makeListing p r).price =
      max 80000 (min (priceClampMax p.max_price
        (priceClampMin p.min_price v r.minPadRoll) r.maxPadRoll) 2000000) := ⟨_, rfl⟩

theorem makeListing_ptype (p : SearchParameters) (r : ListingRand) :
    (makeListing p r).property_type =
      choiceD (candidateTypes p.property_type) "house" r.typeRoll := rfl

/-- Clamping to equal lower and upper bedroom bounds (a truthy bound `k`)
always lands exactly on `k`. -/
theorem clampBed_same (k v : Int) (hk : k ≠ 0) :
    bedroomsClampMax (some k) (bedroomsClampMin (some k) v) = k := by
  simp only [bedroomsClampMin, bedroomsClampMax, intTruthy, Option.getD_some,
    bne_iff_ne, ne_eq]
  split_ifs <;> omega

/-- Clamping to equal lower and upper price bounds (a truthy bound `k`) lands
in `[k - 50000, k]`, for any incoming value. -/
theorem clampPrice_same (k v : Int) (r1 r2 : Nat) (hk : k ≠ 0) :
    k - 50000 ≤ priceClampMax (some k) (priceClampMin (some k) v r1) r2 ∧
    priceClampMax (some k) (priceClampMin (some k) v r1) r2 ≤ k := by
  have h1 := randint_bounds 10000 50000 r1 (by omega)
  have h2 := randint_bounds 10000 50000 r2 (by omega)
  simp only [priceClampMin, priceClampMax, intTruthy, Option.getD_some,
    bne_iff_ne, ne_eq]
  split_ifs <;> omega


/-! ## Claims about the synthetic provider -/

/-- **C1** (amended): for every `SearchCriteria` with
`minBedrooms = maxBedrooms = k` for a *nonzero* `k`, every listing returned by
the synthetic provider has `bedrooms = k` (for `k = 0` Python truthiness skips
both clamps, see the counterexample). -/
theorem mock_bedrooms_eq_of_eq_bounds (params : SearchParameters) (rng : MockRand)
    (k : Int) (hk : k ≠ 0) (hmin : params.min_bedrooms = some k)
    (hmax : params.max_bedrooms = some k) :
    ∀ l ∈ fetchFromMockApi params rng, l.bedrooms = k := by
  intro l hl
  rcases mem_fetch params rng l hl with ⟨r, rfl⟩
  rw [makeListing_bedrooms, hmin, hmax, clampBed_same k _ hk]

/-- **C1** counterexample: with `minBedrooms = maxBedrooms = 0` the clamps are
skipped and a returned listing has `bedrooms = 1 ≠ 0`. -/
theorem mock_bedrooms_zero_cex :
    ¬ (∀ l ∈ fetchFromMockApi zeroBedroomsCriteria zeroMockRand, l.bedrooms = 0) := by
  decide

/-- Witness for `mock_bedrooms_eq_of_eq_bounds` at `k = 2`. -/
theorem mock_bedrooms_eq_of_eq_bounds_witness :
    (2 : Int) ≠ 0 ∧ manchesterFlat2.min_bedrooms = some 2 ∧
    manchesterFlat2.max_bedrooms = some 2 ∧
    ∀ l ∈ fetchFromMockApi manchesterFlat2 zeroMockRand, l.bedrooms = 2 :=
  ⟨by decide, rfl, rfl,
    mock_bedrooms_eq_of_eq_bounds manchesterFlat2 zeroMockRand 2 (by decide) rfl rfl⟩

/-- **C2** (amended): every price returned by the synthetic provider lies in
the absolute window `[80000, 2000000]`; and when `minPrice = maxPrice = k` with
`30000 ≤ k ≤ 2050000`, every returned price lies in `[k - 50000, k + 50000]`
(outside that range of `k` the absolute clamp can push prices out of the
window, see the counterexample). -/
theorem mock_price_window (params : SearchParameters) (rng : MockRand) :
    (∀ l ∈ fetchFromMockApi params rng, 80000 ≤ l.price ∧ l.price ≤ 2000000) ∧
    (∀ k : Int, params.min_price = some k → params.max_price = some k →
      30000 ≤ k → k ≤ 2050000 →
      ∀ l ∈ fetchFromMockApi params rng, k - 50000 ≤ l.price ∧ l.price ≤ k + 50000) := by
  constructor
  · intro l hl
    rcases mem_fetch params rng l hl with ⟨r, rfl⟩
    rcases makeListing_price params r with ⟨v, hv⟩
    rw [hv, max_def, min_def]
    split_ifs <;> omega
  · intro k hmin hmax h1 h2 l hl
    rcases mem_fetch params rng l hl with ⟨r, rfl⟩
    rcases makeListing_price params r with ⟨v, hv⟩
    rw [hmin, hmax] at hv
    have hc := clampPrice_same k v r.minPadRoll r.maxPadRoll (by omega)
    rw [hv, max_def, min_def]
    split_ifs <;> omega

/-- **C2** counterexample: with `minPrice = maxPrice = 20000` the absolute
floor produces a price of `80000 > 20000 + 50000`. -/
theorem mock_price_window_cex :
    ¬ (∀ l ∈ fetchFromMockApi narrowPriceCriteria zeroMockRand,
        20000 - 50000 ≤ l.price ∧ l.price ≤ 20000 + 50000) := by
  decide

/-- Witness for `mock_price_window` at `k = 300000`. -/
theorem mock_price_window_witness :
    windowPriceCriteria.min_price = some 300000 ∧
    windowPriceCriteria.max_price = some 300000 ∧
    (30000 : Int) ≤ 300000 ∧ (300000 : Int) ≤ 2050000 ∧
    ∀ l ∈ fetchFromMockApi windowPriceCriteria zeroMockRand,
      300000 - 50000 ≤ l.price ∧ l.price ≤ 300000 + 50000 :=
  ⟨rfl, rfl, by decide, by decide,
    (mock_price_window windowPriceCriteria zeroMockRand).2 300000 rfl rfl
      (by decide) (by decide)⟩

/-- **C6**: for every criteria and every randomness draw, the list returned by
the synthetic provider is sorted ascending by price. -/
theorem mock_sorted_by_price (params : SearchParameters) (rng : MockRand) :
    List.Pairwise (fun a b => a.price ≤ b.price) (fetchFromMockApi params rng) := by
  unfold fetchFromMockApi
  exact sorted_sortByPrice _

/-- **C8** (amended): the synthetic provider is deterministic in the pair
(criteria, random draws): the same criteria with the same underlying random
values yield the same list, whose length is fixed by the number-of-properties
draw alone; it is *not* deterministic in the criteria alone, since each call
consumes fresh global-RNG state (see the counterexample). -/
theorem mock_deterministic_in_criteria_and_randomness (params : SearchParameters)
    (r1 r2 : MockRand) (h : r1 = r2) :
    fetchFromMockApi params r1 = fetchFromMockApi params r2 ∧
    (fetchFromMockApi params r1).length = 3 + r1.numRoll % 6 := by
  subst h
  exact ⟨rfl, length_fetch params r1⟩

/-- **C8** counterexample: the same criteria with two different draws of the
number-of-properties roll yield lists of different lengths. -/
theorem mock_not_deterministic_in_criteria_cex :
    fetchFromMockApi manchesterFlat2 zeroMockRand ≠
      fetchFromMockApi manchesterFlat2 altMockRand := by
  intro h
  have hlen := congrArg List.length h
  rw [length_fetch, length_fetch] at hlen
  simp [zeroMockRand, altMockRand] at hlen

/-- Witness for `mock_deterministic_in_criteria_and_randomness`. -/
theorem mock_deterministic_witness :
    zeroMockRand = zeroMockRand ∧
    fetchFromMockApi manchesterFlat2 zeroMockRand =
      fetchFromMockApi manchesterFlat2 zeroMockRand ∧
    (fetchFromMockApi manchesterFlat2 zeroMockRand).length = 3 + zeroMockRand.numRoll % 6 :=
  ⟨rfl,
    (mock_deterministic_in_criteria_and_randomness manchesterFlat2 zeroMockRand
      zeroMockRand rfl).1,
    (mock_deterministic_in_criteria_and_randomness manchesterFlat2 zeroMockRand
      zeroMockRand rfl).2⟩

/-- An empty needle is contained in every string. -/
theorem containsSub_empty_needle (s : String) : containsSub s "" = true :=
  containsChars_nil s.data

/-- The candidate-type list is never empty (the filter falls back to
`["house"]`). -/
theorem candidateTypes_ne_nil (o : Option String) : candidateTypes o ≠ [] := by
  unfold candidateTypes
  by_cases h1 : strTruthy o
  · simp only [h1, if_true]
    by_cases h2 : (basePropertyTypes.filter
        (fun pt => containsSub (pyLower pt) (pyLower (o.getD "")))).isEmpty
    · simp [h2]
    · simp only [h2, if_false]
      simpa [List.isEmpty_iff] using h2
  · simp [h1, basePropertyTypes]

/-- **C7**: with a requested `propertyType` substring, every returned listing's
type is a fixed-set type containing the substring case-insensitively, except
that when no fixed-set type contains it, every returned type is `"house"`. -/
theorem mock_property_type_filter (params : SearchParameters) (rng : MockRand)
    (t : String) (h : params.property_type = some t) :
    ∀ l ∈ fetchFromMockApi params rng,
      (l.property_type ∈ basePropertyTypes ∧
        containsSub (pyLower l.property_type) (pyLower t) = true) ∨
      ((∀ pt ∈ basePropertyTypes, containsSub (pyLower pt) (pyLower t) = false) ∧
        l.property_type = "house") := by
  intro l hl
  rcases mem_fetch params rng l hl with ⟨r, rfl⟩
  rw [makeListing_ptype, h]
  have hmem := choiceD_mem (candidateTypes (some t)) "house" r.typeRoll
    (candidateTypes_ne_nil _)
  by_cases ht : strTruthy (some t)
  · by_cases hf : (basePropertyTypes.filter
        (fun pt => containsSub (pyLower pt) (pyLower t))).isEmpty
    · right
      have hnil : basePropertyTypes.filter
          (fun pt => containsSub (pyLower pt) (pyLower t)) = [] := by
        simpa [List.isEmpty_iff] using hf
      constructor
      · intro pt hpt
        have := List.filter_eq_nil_iff.mp hnil pt hpt
        simpa using this
      · have hch : candidateTypes (some t) = ["house"] := by
          simp [candidateTypes, ht, hf]
        rw [hch] at hmem
        rw [hch]
        simpa using hmem
    · left
      have hc : candidateTypes (some t) =
          basePropertyTypes.filter (fun pt => containsSub (pyLower pt) (pyLower t)) := by
        simp [candidateTypes, ht, hf]
      rw [hc] at hmem
      rw [hc]
      rcases List.mem_filter.mp hmem with ⟨hbase, hpred⟩
      exact ⟨hbase, by simpa using hpred⟩
  · -- `some ""` is falsy: no filtering happens, and every type contains `""`
    have ht0 : t = "" := by simpa [strTruthy] using ht
    left
    have hc : candidateTypes (some t) = basePropertyTypes := by
      simp [candidateTypes, ht]
    rw [hc] at hmem
    rw [hc]
    subst ht0
    exact ⟨hmem, containsSub_empty_needle _⟩

/-- Witness for `mock_property_type_filter` with requested type `"flat"`. -/
theorem mock_property_type_filter_witness :
    manchesterFlat2.property_type = some "flat" ∧
    ∀ l ∈ fetchFromMockApi manchesterFlat2 zeroMockRand,
      (l.property_type ∈ basePropertyTypes ∧
        containsSub (pyLower l.property_type) (pyLower "flat") = true) ∨
      ((∀ pt ∈ basePropertyTypes, containsSub (pyLower pt) (pyLower "flat") = false) ∧
        l.property_type = "house") :=
  ⟨rfl, mock_property_type_filter manchesterFlat2 zeroMockRand "flat" rfl⟩

/-- **C9**: a numeric bound that is present with value `0` behaves exactly as
an absent bound: Python tests the bound's truthiness, so the corresponding
clamp is never applied. -/
theorem mock_zero_bound_like_absent (p : SearchParameters) (rng : MockRand) :
    fetchFromMockApi { p with min_price := some 0 } rng =
      fetchFromMockApi { p with min_price := none } rng ∧
    fetchFromMockApi { p with max_price := some 0 } rng =
      fetchFromMockApi { p with max_price := none } rng ∧
    fetchFromMockApi { p with min_bedrooms := some 0 } rng =
      fetchFromMockApi { p with min_bedrooms := none } rng ∧
    fetchFromMockApi { p with max_bedrooms := some 0 } rng =
      fetchFromMockApi { p with max_bedrooms := none } rng :=
  ⟨rfl, rfl, rfl, rfl⟩

/-! ## Claims about the criteria source -/


theorem getD_guard (row : List String) (i : Nat) :
    (if i < row.length then row.getD i "" else "") = row.getD i "" := by
  split
  · rfl
  · rw [List.getD_eq_default]
    omega

/-- One loop turn keeps a row exactly when it is valid. -/
theorem keepRow_eq (cols : ColumnIndices) (locIdx : Nat) (row : List String) :
    keepRow cols locIdx row =
      (if validRow locIdx row then some (rowToParams cols locIdx row) else none) := by
  unfold keepRow validRow
  rw [getD_guard]
  cases h1 : row.any (fun cell => pyStrip cell ≠ "") with
  | false => simp
  | true =>
    by_cases h2 : pyStrip (row.getD locIdx "") = "" <;> simp [h2]

/-- The row loop keeps exactly the valid rows, in order. -/
theorem processRows_eq (cols : ColumnIndices) (locIdx : Nat)
    (rows : List (List String)) :
    processRows cols locIdx rows =
      (rows.filter (validRow locIdx)).map (rowToParams cols locIdx) := by
  induction rows with
  | nil => rfl
  | cons row rest ih =>
    unfold processRows at ih ⊢
    rw [List.filterMap_cons, List.filter_cons, keepRow_eq]
    cases hv : validRow locIdx row <;> simp [hv, ih]

/-- **C3**: with a resolvable location column and at least one valid data row,
`get_search_parameters` succeeds with the valid rows parsed in source order;
in particular the result is non-empty and its length is the number of
non-blank, location-bearing data rows. -/
theorem sheets_valid_rows (hd : List String) (rows : List (List String)) (i : Nat)
    (hloc : (resolveColumns (normalizeHeaders hd)).location = some i)
    (hcount : 0 < rows.countP (validRow i)) :
    getSearchParameters (hd :: rows) =
      .ok ((rows.filter (validRow i)).map
        (rowToParams (resolveColumns (normalizeHeaders hd)) i)) ∧
    ((rows.filter (validRow i)).map
        (rowToParams (resolveColumns (normalizeHeaders hd)) i)).length =
      rows.countP (validRow i) ∧
    (rows.filter (validRow i)).map
        (rowToParams (resolveColumns (normalizeHeaders hd)) i) ≠ [] := by
  have hlen : ((rows.filter (validRow i)).map
      (rowToParams (resolveColumns (normalizeHeaders hd)) i)).length =
      rows.countP (validRow i) := by
    rw [List.length_map, ← List.countP_eq_length_filter]
  have hne : (rows.filter (validRow i)).map
      (rowToParams (resolveColumns (normalizeHeaders hd)) i) ≠ [] := by
    apply List.ne_nil_of_length_pos
    omega
  refine ⟨?_, hlen, hne⟩
  show parseSheet hd rows = _
  have hps : parseSheet hd rows =
      (if processRows (resolveColumns (normalizeHeaders hd)) i rows = [] then
        .error "No valid search parameters found in the worksheet."
      else .ok (processRows (resolveColumns (normalizeHeaders hd)) i rows)) := by
    simp only [parseSheet]
    rw [hloc]
  rw [hps, processRows_eq, if_neg hne]

/-- **C4**: starting from a fetched cell matrix with at least a header row,
`get_search_parameters` raises exactly when no location column resolves or
when zero valid criteria rows result; row-level malformation alone never
raises. -/
theorem sheets_error_iff (hd : List String) (rows : List (List String)) :
    (∃ e, getSearchParameters (hd :: rows) = .error e) ↔
      ((resolveColumns (normalizeHeaders hd)).location = none ∨
        ∃ i, (resolveColumns (normalizeHeaders hd)).location = some i ∧
          rows.countP (validRow i) = 0) := by
  show (∃ e, parseSheet hd rows = .error e) ↔ _
  cases hcase : (resolveColumns (normalizeHeaders hd)).location with
  | none =>
    have hps : parseSheet hd rows =
        .error "Required column 'Location' not found in the worksheet." := by
      simp only [parseSheet]
      rw [hcase]
    rw [hps]
    simp [hcase]
  | some i =>
    have hps : parseSheet hd rows =
        (if processRows (resolveColumns (normalizeHeaders hd)) i rows = [] then
          .error "No valid search parameters found in the worksheet."
        else .ok (processRows (resolveColumns (normalizeHeaders hd)) i rows)) := by
      simp only [parseSheet]
      rw [hcase]
    rw [hps, processRows_eq]
    have hlen : ((rows.filter (validRow i)).map
        (rowToParams (resolveColumns (normalizeHeaders hd)) i)).length =
        rows.countP (validRow i) := by
      rw [List.length_map, ← List.countP_eq_length_filter]
    constructor
    · rintro ⟨e, he⟩
      by_cases hnil : (rows.filter (validRow i)).map
          (rowToParams (resolveColumns (normalizeHeaders hd)) i) = []
      · right
        refine ⟨i, rfl, ?_⟩
        rw [hnil] at hlen
        simpa using hlen.symm
      · rw [if_neg hnil] at he
        exact absurd he (by simp)
    · rintro (hnone | ⟨j, hj, hzero⟩)
      · cases hnone
      · injection hj with hji
        subst hji
        have hnil : (rows.filter (validRow i)).map
            (rowToParams (resolveColumns (normalizeHeaders hd)) i) = [] := by
          rw [← List.length_eq_zero, hlen, hzero]
        rw [if_pos hnil]
        exact ⟨_, rfl⟩


/-- Witness for `sheets_valid_rows` on a concrete three-row table. -/
theorem sheets_valid_rows_witness :
    (resolveColumns (normalizeHeaders sampleHeader)).location = some 0 ∧
    0 < sampleRows.countP (validRow 0) ∧
    getSearchParameters (sampleHeader :: sampleRows) =
      .ok ((sampleRows.filter (validRow 0)).map
        (rowToParams (resolveColumns (normalizeHeaders sampleHeader)) 0)) ∧
    ((sampleRows.filter (validRow 0)).map
        (rowToParams (resolveColumns (normalizeHeaders sampleHeader)) 0)).length =
      sampleRows.countP (validRow 0) :=
  ⟨by decide, by decide,
    (sheets_valid_rows sampleHeader sampleRows 0 (by decide) (by decide)).1,
    (sheets_valid_rows sampleHeader sampleRows 0 (by decide) (by decide)).2.1⟩

/-! ## Claims about the orchestrator -/

/-- **C5**: on any fatal error while obtaining criteria, the orchestrator
substitutes exactly one fallback record (London, 300000-600000, 2-4 bedrooms,
type house) and still performs the per-record fetch-and-dispatch step for it;
with the synthetic provider the listing list is never empty, so a report is
dispatched. -/
theorem orchestrator_fallback (env : SheetsEnv) (e : String)
    (h : acquireCriteria env = .error e)
    (fetch : SearchParameters → List PropertyListing) :
    getSearchParametersFromSheets env = [londonFallback] ∧
    (londonFallback.location = "London" ∧ londonFallback.min_price = some 300000 ∧
      londonFallback.max_price = some 600000 ∧ londonFallback.min_bedrooms = some 2 ∧
      londonFallback.max_bedrooms = some 4 ∧ londonFallback.property_type = some "house" ∧
      londonFallback.radius_miles = none) ∧
    runMain fetch env = [(londonFallback, runSearchAndEmail fetch londonFallback)] ∧
    (∀ rng : MockRand,
      runSearchAndEmail (fun q => fetchFromMockApi q rng) londonFallback ≠ none) := by
  have h1 : getSearchParametersFromSheets env = [londonFallback] := by
    unfold getSearchParametersFromSheets
    rw [h]
  refine ⟨h1, ⟨rfl, rfl, rfl, rfl, rfl, rfl, rfl⟩, ?_, ?_⟩
  · unfold runMain
    rw [h1]
    rfl
  · intro rng
    have hne : fetchFromMockApi londonFallback rng ≠ [] := by
      intro hnil
      have hl := length_fetch londonFallback rng
      rw [hnil] at hl
      simp at hl
      omega
    unfold runSearchAndEmail
    simp [hne]


/-- Witness for `orchestrator_fallback` on a missing credentials file. -/
theorem orchestrator_fallback_witness :
    acquireCriteria missingCredsEnv = .error "Google Sheets credentials file not found" ∧
    getSearchParametersFromSheets missingCredsEnv = [londonFallback] ∧
    runMain (fun q => fetchFromMockApi q zeroMockRand) missingCredsEnv =
      [(londonFallback,
        runSearchAndEmail (fun q => fetchFromMockApi q zeroMockRand) londonFallback)] :=
  ⟨rfl,
    (orchestrator_fallback missingCredsEnv _ rfl
      (fun q => fetchFromMockApi q zeroMockRand)).1,
    (orchestrator_fallback missingCredsEnv _ rfl
      (fun q => fetchFromMockApi q zeroMockRand)).2.2.1⟩

/-- **C10**: every exception during criteria acquisition triggers the fallback,
including reader-construction failures (missing credentials file,
authentication errors) and source failures, and in all such cases the run
continues with the single London fallback record. -/
theorem fallback_catches_all_acquisition_errors (env : SheetsEnv) :
    (∀ e, acquireCriteria env = .error e →
      getSearchParametersFromSheets env = [londonFallback]) ∧
    (env.credentialsFileExists = false → ∃ e, acquireCriteria env = .error e) ∧
    (∀ e, env.authResult = .error e → ∃ e2, acquireCriteria env = .error e2) ∧
    (∀ e, env.openResult = .error e → ∃ e2, acquireCriteria env = .error e2) := by
  refine ⟨?_, ?_, ?_, ?_⟩
  · intro e h
    unfold getSearchParametersFromSheets
    rw [h]
  · intro h
    refine ⟨"Google Sheets credentials file not found", ?_⟩
    unfold acquireCriteria authenticate
    rw [h]
    rfl
  · intro e h
    by_cases hc : env.credentialsFileExists
    · refine ⟨e, ?_⟩
      unfold acquireCriteria authenticate
      rw [h]
      simp only [hc, Bool.not_true, Bool.false_eq_true, if_false]
      rfl
    · refine ⟨"Google Sheets credentials file not found", ?_⟩
      unfold acquireCriteria authenticate
      simp only [Bool.not_eq_true] at hc
      simp only [hc, Bool.not_false, if_true]
      rfl
  · intro e h
    cases ha : authenticate env with
    | error e2 =>
      refine ⟨e2, ?_⟩
      unfold acquireCriteria
      rw [ha]
      rfl
    | ok u =>
      refine ⟨e, ?_⟩
      unfold acquireCriteria
      rw [ha, h]
      rfl


/-- Witness for `fallback_catches_all_acquisition_errors` on an
authentication failure during reader construction. -/
theorem fallback_catches_all_witness :
    badAuthEnv.authResult = .error "invalid credentials" ∧
    (∃ e2, acquireCriteria badAuthEnv = .error e2) ∧
    getSearchParametersFromSheets badAuthEnv = [londonFallback] :=
  ⟨rfl,
    (fallback_catches_all_acquisition_errors badAuthEnv).2.2.1 "invalid credentials" rfl,
    (fallback_catches_all_acquisition_errors badAuthEnv).1 "invalid credentials" rfl⟩

end PropertiesSearch
